import Mathlib

/-!
Verification of the kube-workload-compute-details-api collection pipeline.

Shallow embedding of `src/main.rs`: the namespace fan-out collector
(`get_pods_info`) and the pod record normalizer (the body of its per-pod
loop), together with the HTTP handler `get_all_pods_info`.

Modelling conventions:
* `k8s_openapi` `Quantity` is a newtype over a string; we embed it as a
  one-field structure.
* Rust `BTreeMap<String, V>` values are embedded as association lists
  (`List (String × V)`) with `List.lookup` for `get` (keys are unique in a
  `BTreeMap`, so first-match lookup agrees with map lookup).
* Every Rust `Option::unwrap()` is modelled by `unwrapO`, which turns `none`
  into an `Except.error` carrying the panic message: a panic unwinds the
  whole `for_each_concurrent` future, so an `error` produced anywhere in the
  per-namespace processing aborts the entire collection, exactly as the
  panic does in the source.
* The outcome of the whole operation is a `RunResult`: `ok` (normal value),
  `err` (an `anyhow::Result` error propagated with `?`, e.g. client
  bootstrap failure), or `panicked` (an `unwrap` panic).
* The external cluster query capability (`api.list`) is an environment
  `Env : String → Except String (List RawPod)` giving, per namespace, either
  the listed pods or a query failure.
* `for_each_concurrent` interleaving is modelled by the sequential schedule
  in namespace order; all properties proved here (lengths, membership,
  panic propagation) are insensitive to the append interleaving.
-/

/-- `k8s_openapi::apimachinery::pkg::api::resource::Quantity`: a newtype
over the string-encoded quantity ("500m", "256Mi", ...). -/
structure Quantity where
  val : String
deriving DecidableEq, Repr

/-- The `requests` part of `k8s_openapi` `ResourceRequirements`
(`requests: Option<BTreeMap<String, Quantity>>`); the `limits` part is
never read by the program. -/
structure RawResourceRequirements where
  requests : Option (List (String × Quantity))
deriving DecidableEq, Repr

/-- The fields of a `k8s_openapi` container that the program reads. -/
structure RawContainer where
  name : String
  image : Option String
  resources : Option RawResourceRequirements
deriving DecidableEq, Repr

/-- The fields of a pod spec the program reads: `node_name` and the
declared container list. -/
structure RawPodSpec where
  node_name : Option String
  containers : List RawContainer
deriving DecidableEq, Repr

/-- A pod status; the program only reads `phase`. -/
structure RawPodStatus where
  phase : Option String
deriving DecidableEq, Repr

/-- The identity metadata of a raw pod: `name`, `namespace`, `labels`,
each optional in the wire schema. -/
structure RawObjectMeta where
  name : Option String
  «namespace» : Option String
  labels : Option (List (String × String))
deriving DecidableEq, Repr

/-- A raw pod as returned by the cluster query (`k8s_openapi` `Pod`),
restricted to the fields the program reads. -/
structure RawPod where
  metadata : RawObjectMeta
  spec : Option RawPodSpec
  status : Option RawPodStatus
deriving DecidableEq, Repr

/-- Output record `ComputeResources` from `src/main.rs`. -/
structure ComputeResources where
  requested_cpu : Quantity
  requested_memory : Quantity
deriving DecidableEq, Repr

/-- Output record `Container` from `src/main.rs`. -/
structure Container where
  name : String
  image : Option String
  compute_resources : ComputeResources
deriving DecidableEq, Repr

/-- Output record `Metadata` from `src/main.rs`: an optional label map. -/
structure Metadata where
  labels : Option (List (String × String))
deriving DecidableEq, Repr

/-- Output record `PodComputeInfo` from `src/main.rs`. -/
structure PodComputeInfo where
  name : String
  «namespace» : String
  node_name : String
  maintainer : String
  containers : List Container
  metadata : Option Metadata
deriving DecidableEq, Repr

/-- Request body `PodComputeInfoRequestBody` from `src/main.rs`. -/
structure PodComputeInfoRequestBody where
  maintainers : Option (List String)
  namespaces : List String
deriving DecidableEq, Repr

/-- Rust `Option::unwrap()`: `none` panics. The panic is carried as an
`Except.error` with the standard panic message. -/
def unwrapO : Option α → Except String α
  | some a => Except.ok a
  | none => Except.error "called Option::unwrap() on a None value"

/-- The filter predicate of the per-pod loop (`src/main.rs:84-86`):
`pod.status.as_ref().unwrap().phase.as_ref().unwrap() == "Running"`.
Both `unwrap`s can panic. -/
def isRunning (p : RawPod) : Except String Bool := do
  let st ← unwrapO p.status
  let ph ← unwrapO st.phase
  pure (ph == "Running")

/-- The per-container closure of `src/main.rs:100-125`: image and name are
copied, the cpu and memory requests are read with four `unwrap`s
(`resources`, `requests`, `get("cpu")`, `get("memory")`). -/
def normalizeContainer (c : RawContainer) : Except String Container := do
  let res ← unwrapO c.resources
  let reqs ← unwrapO res.requests
  let cpu ← unwrapO (reqs.lookup "cpu")
  let mem ← unwrapO (reqs.lookup "memory")
  pure { name := c.name, image := c.image,
         compute_resources := { requested_cpu := cpu, requested_memory := mem } }

/-- The per-pod body of the loop (`src/main.rs:87-137`), for a pod that
passed the `Running` filter: labels default to the empty map, maintainer to
`""`, node name to `""`; `spec`, per-container requests, `name` and
`namespace` are `unwrap`ped. -/
def processPod (p : RawPod) : Except String PodComputeInfo := do
  let labels := p.metadata.labels.getD []
  let maintainer := (labels.lookup "maintainer").getD ""
  let spec0 ← unwrapO p.spec
  let node_name := spec0.node_name.getD ""
  let containers ← spec0.containers.mapM normalizeContainer
  let name ← unwrapO p.metadata.name
  let nspace ← unwrapO p.metadata.«namespace»
  pure { name := name, «namespace» := nspace, node_name := node_name,
         maintainer := maintainer, containers := containers,
         metadata := some { labels := some labels } }

/-- The `Ok(p)` branch of one namespace worker (`src/main.rs:83-139`): walk
the returned items in order; the lazily-evaluated filter and the loop body
are interleaved, and a panic in either aborts the whole worker. -/
def processItems : List RawPod → Except String (List PodComputeInfo)
  | [] => Except.ok []
  | p :: rest => do
    let b ← isRunning p
    if b then
      let info ← processPod p
      let tail ← processItems rest
      pure (info :: tail)
    else
      processItems rest

/-- The external cluster query capability: per namespace, either the listed
pods or a query error (`api.list(&Default::default())`). -/
def Env : Type := String → Except String (List RawPod)

/-- The fan-out loop of `get_pods_info` (`src/main.rs:76-145`), under the
sequential schedule: a namespace whose query fails only logs
(`Err(e) => eprintln!`) and contributes nothing; a successful namespace is
processed by `processItems`, whose panic aborts everything. -/
def collectLoop (env : Env) : List String → Except String (List PodComputeInfo)
  | [] => Except.ok []
  | ns :: rest =>
    match env ns with
    | Except.ok items => do
        let here ← processItems items
        let there ← collectLoop env rest
        pure (here ++ there)
    | Except.error _ => collectLoop env rest

/-- The outcome of running a piece of the program: a normal value, an
`anyhow` error returned with `?`, or an `unwrap` panic. -/
inductive RunResult (α : Type) where
  | ok : α → RunResult α
  | err : String → RunResult α
  | panicked : String → RunResult α
deriving DecidableEq, Repr

/-- `get_pods_info` (`src/main.rs:70-147`): construct the client
(`Client::try_default().await?` — failure propagates as an `anyhow` error),
fan out over the namespaces, return the accumulated collection. The
`maintainers` parameter is bound but never read in the body. -/
def get_pods_info (client : Except String Unit) (env : Env)
    (namespaces : List String) (maintainers : List String) :
    RunResult (List PodComputeInfo) :=
  match client with
  | Except.error e => RunResult.err e
  | Except.ok _ =>
    match collectLoop env namespaces with
    | Except.ok v => RunResult.ok v
    | Except.error e => RunResult.panicked e

/-- The HTTP response produced by the handler: a status-200 JSON body. -/
inductive Response where
  | json : List PodComputeInfo → Response
deriving DecidableEq, Repr

/-- The handler `get_all_pods_info` (`src/main.rs:62-68`): calls
`get_pods_info(request_body.namespaces, Vec::new())` — the request body's
`maintainers` field is dropped — and `unwrap`s the result, so an `anyhow`
error becomes a panic instead of an HTTP error response. -/
def get_all_pods_info (client : Except String Unit) (env : Env)
    (request_body : PodComputeInfoRequestBody) : RunResult Response :=
  match get_pods_info client env request_body.namespaces [] with
  | RunResult.ok v => RunResult.ok (Response.json v)
  | RunResult.err e => RunResult.panicked e
  | RunResult.panicked e => RunResult.panicked e

/-- The number of pods in a returned item list whose status phase is
exactly `"Running"`. -/
def runningCount (items : List RawPod) : Nat :=
  (items.filter
    (fun p => decide (p.status.bind RawPodStatus.phase = some "Running"))).length

/-- The sum, over the namespace occurrences of the request, of the
running-pod count of each successful query; failed queries count zero. -/
def totalRunning (env : Env) (namespaces : List String) : Nat :=
  (namespaces.map (fun ns =>
    match env ns with
    | Except.ok items => runningCount items
    | Except.error _ => 0)).sum

/-- The running pods a single namespace query would return (empty for a
failed query). -/
def runningPodsOf (env : Env) (ns : String) : List RawPod :=
  match env ns with
  | Except.ok items =>
      items.filter (fun p => decide (p.status.bind RawPodStatus.phase = some "Running"))
  | Except.error _ => []

/-- The size of the true union of running pods across the queried
namespaces: distinct running pods, with neither repeated namespace
occurrences nor repeated pods counted twice. -/
def trueUnionCount (env : Env) (namespaces : List String) : Nat :=
  ((namespaces.dedup.flatMap (runningPodsOf env)).dedup).length

/-! ## Concrete fixtures used by witnesses and counterexamples -/

/-- The requests map "cpu" ↦ "500m", "memory" ↦ "256Mi". -/
def reqs500 : List (String × Quantity) :=
  [("cpu", { val := "500m" }), ("memory", { val := "256Mi" })]

/-- A fully-populated container requesting cpu "500m" and memory "256Mi". -/
def c500 : RawContainer :=
  { name := "main", image := some "nginx",
    resources := some { requests := some reqs500 } }

/-- A well-formed running pod in namespace "a". -/
def podGood : RawPod :=
  { metadata := { name := some "web-1", «namespace» := some "a",
                  labels := some [("maintainer", "team-x"), ("app", "web")] },
    spec := some { node_name := some "node-1", containers := [c500] },
    status := some { phase := some "Running" } }

/-- A second well-formed running pod in namespace "a", unlabeled and
unscheduled. -/
def podGood2 : RawPod :=
  { metadata := { name := some "web-2", «namespace» := some "a", labels := none },
    spec := some { node_name := none, containers := [c500] },
    status := some { phase := some "Running" } }

/-- A well-formed pod in namespace "a" whose phase is "Pending". -/
def podPending : RawPod :=
  { metadata := { name := some "web-3", «namespace» := some "a", labels := none },
    spec := some { node_name := none, containers := [c500] },
    status := some { phase := some "Pending" } }

/-- A running pod whose only container declares no `resources` block. -/
def podBadRes : RawPod :=
  { metadata := { name := some "bad-1", «namespace» := some "a", labels := none },
    spec := some { node_name := some "node-1",
                   containers := [{ name := "main", image := none, resources := none }] },
    status := some { phase := some "Running" } }

/-- A pod with no `status` field at all. -/
def podNoStatus : RawPod :=
  { metadata := { name := some "nostatus-1", «namespace» := some "a", labels := none },
    spec := some { node_name := some "node-1", containers := [c500] },
    status := none }

/-- A minimal running pod: spec present but unscheduled, no labels, no
containers. -/
def podMinimal : RawPod :=
  { metadata := { name := some "min-1", «namespace» := some "a", labels := none },
    spec := some { node_name := none, containers := [] },
    status := some { phase := some "Running" } }

/-- The normalized record the pipeline produces for `podGood`. -/
def infoGood : PodComputeInfo :=
  { name := "web-1", «namespace» := "a", node_name := "node-1",
    maintainer := "team-x",
    containers := [{ name := "main", image := some "nginx",
                     compute_resources := { requested_cpu := { val := "500m" },
                                            requested_memory := { val := "256Mi" } } }],
    metadata := some { labels := some [("maintainer", "team-x"), ("app", "web")] } }

/-- The normalized record the pipeline produces for `podGood2`. -/
def infoGood2 : PodComputeInfo :=
  { name := "web-2", «namespace» := "a", node_name := "", maintainer := "",
    containers := [{ name := "main", image := some "nginx",
                     compute_resources := { requested_cpu := { val := "500m" },
                                            requested_memory := { val := "256Mi" } } }],
    metadata := some { labels := some [] } }

/-- The output record `normalizeContainer` produces for `c500`. -/
def out500 : Container :=
  { name := "main", image := some "nginx",
    compute_resources := { requested_cpu := { val := "500m" },
                           requested_memory := { val := "256Mi" } } }

/-- The normalized record the pipeline produces for `podMinimal`. -/
def infoMinimal : PodComputeInfo :=
  { name := "min-1", «namespace» := "a", node_name := "", maintainer := "",
    containers := [], metadata := some { labels := some [] } }

/-- Environment of the spec's worked example: namespace "a" returns two
running pods and one pending pod, namespace "b" fails. -/
def envAB : Env := fun ns =>
  if ns = "a" then Except.ok [podGood, podPending, podGood2]
  else Except.error "forbidden"

/-- Environment where namespace "a" holds one running pod whose container
lacks a resources block, next to a well-formed sibling, and namespace "b"
is healthy. -/
def envBadRes : Env := fun ns =>
  if ns = "a" then Except.ok [podBadRes, podGood]
  else if ns = "b" then Except.ok [podGood2]
  else Except.error "forbidden"

/-- Environment where namespace "a" holds a pod with no status field, next
to a well-formed sibling. -/
def envNoStatus : Env := fun ns =>
  if ns = "a" then Except.ok [podNoStatus, podGood]
  else Except.error "forbidden"

/-- Environment with a single namespace "a" holding one running pod. -/
def envDup : Env := fun ns =>
  if ns = "a" then Except.ok [podGood] else Except.error "forbidden"

@[simp]
theorem ok_bind {ε α β : Type} (a : α) (f : α → Except ε β) :
    (Except.ok a : Except ε α) >>= f = f a := rfl

@[simp]
theorem error_bind {ε α β : Type} (e : ε) (f : α → Except ε β) :
    (Except.error e : Except ε α) >>= f = Except.error e := rfl

theorem isRunning_ok_iff (p : RawPod) (b : Bool) (h : isRunning p = Except.ok b) :
    b = true ↔ p.status.bind RawPodStatus.phase = some "Running" := by
  cases hs : p.status with
  | none => simp [isRunning, hs, unwrapO] at h
  | some st =>
    cases hp : st.phase with
    | none => simp [isRunning, hs, hp, unwrapO] at h
    | some ph =>
      simp [isRunning, hs, hp, unwrapO] at h
      subst h
      simp [Option.bind, hp]

theorem processItems_ok_length (items : List RawPod) (res : List PodComputeInfo)
    (h : processItems items = Except.ok res) : res.length = runningCount items := by
  induction items generalizing res with
  | nil =>
    simp [processItems] at h
    subst h
    simp [runningCount]
  | cons p rest ih =>
    rw [processItems] at h
    cases hr : isRunning p with
    | error e => rw [hr] at h; simp at h
    | ok b =>
      rw [hr] at h
      have hiff := isRunning_ok_iff p b hr
      cases b with
      | false =>
        simp at h
        have hnot : ¬ (p.status.bind RawPodStatus.phase = some "Running") := by
          intro hc
          exact absurd (hiff.mpr hc) (by simp)
        simp [runningCount, List.filter_cons, hnot]
        exact ih res h
      | true =>
        simp at h
        cases hpp : processPod p with
        | error e => rw [hpp] at h; simp at h
        | ok info =>
          rw [hpp] at h
          simp at h
          cases ht : processItems rest with
          | error e => rw [ht] at h; simp at h
          | ok tail =>
            rw [ht] at h
            simp at h
            subst h
            have := ih tail ht
            simp [runningCount, List.filter_cons, hiff.mp rfl] at this ⊢
            omega

theorem collectLoop_ok_length (env : Env) (namespaces : List String)
    (res : List PodComputeInfo) (h : collectLoop env namespaces = Except.ok res) :
    res.length = totalRunning env namespaces := by
  induction namespaces generalizing res with
  | nil =>
    simp [collectLoop] at h
    subst h
    simp [totalRunning]
  | cons ns rest ih =>
    rw [collectLoop] at h
    cases he : env ns with
    | error e =>
      rw [he] at h
      dsimp only at h
      simp [totalRunning, List.map_cons, he]
      exact ih res h
    | ok items =>
      rw [he] at h
      dsimp only at h
      cases hp : processItems items with
      | error e => rw [hp] at h; simp at h
      | ok here =>
        rw [hp] at h
        simp at h
        cases hc : collectLoop env rest with
        | error e => rw [hc] at h; simp at h
        | ok there =>
          rw [hc] at h
          simp at h
          subst h
          have h1 := processItems_ok_length items here hp
          have h2 := ih there hc
          simp [totalRunning, List.map_cons, he] at h2 ⊢
          omega

theorem processItems_mem_source (items : List RawPod) (res : List PodComputeInfo)
    (h : processItems items = Except.ok res) (info : PodComputeInfo)
    (hm : info ∈ res) :
    ∃ p ∈ items, p.status.bind RawPodStatus.phase = some "Running" ∧
      processPod p = Except.ok info := by
  induction items generalizing res with
  | nil =>
    simp [processItems] at h
    subst h
    simp at hm
  | cons p rest ih =>
    rw [processItems] at h
    cases hr : isRunning p with
    | error e => rw [hr] at h; simp at h
    | ok b =>
      rw [hr] at h
      cases b with
      | false =>
        simp at h
        obtain ⟨q, hq, hrun, hinfo⟩ := ih res h hm
        exact ⟨q, List.mem_cons_of_mem p hq, hrun, hinfo⟩
      | true =>
        simp at h
        cases hpp : processPod p with
        | error e => rw [hpp] at h; simp at h
        | ok i0 =>
          rw [hpp] at h
          simp at h
          cases ht : processItems rest with
          | error e => rw [ht] at h; simp at h
          | ok tail =>
            rw [ht] at h
            simp at h
            subst h
            rcases List.mem_cons.mp hm with heq | htail
            · subst heq
              exact ⟨p, List.mem_cons_self p rest,
                (isRunning_ok_iff p true hr).mp rfl, hpp⟩
            · obtain ⟨q, hq, hrun, hinfo⟩ := ih tail ht htail
              exact ⟨q, List.mem_cons_of_mem p hq, hrun, hinfo⟩

theorem collectLoop_mem_source (env : Env) (namespaces : List String)
    (res : List PodComputeInfo) (h : collectLoop env namespaces = Except.ok res)
    (info : PodComputeInfo) (hm : info ∈ res) :
    ∃ ns ∈ namespaces, ∃ items, env ns = Except.ok items ∧
      ∃ p ∈ items, p.status.bind RawPodStatus.phase = some "Running" ∧
        processPod p = Except.ok info := by
  induction namespaces generalizing res with
  | nil =>
    simp [collectLoop] at h
    subst h
    simp at hm
  | cons ns rest ih =>
    rw [collectLoop] at h
    cases he : env ns with
    | error e =>
      rw [he] at h
      dsimp only at h
      obtain ⟨ns1, hns1, rest1⟩ := ih res h hm
      exact ⟨ns1, List.mem_cons_of_mem ns hns1, rest1⟩
    | ok items =>
      rw [he] at h
      dsimp only at h
      cases hp : processItems items with
      | error e => rw [hp] at h; simp at h
      | ok here =>
        rw [hp] at h
        simp at h
        cases hc : collectLoop env rest with
        | error e => rw [hc] at h; simp at h
        | ok there =>
          rw [hc] at h
          simp at h
          subst h
          rcases List.mem_append.mp hm with hhere | hthere
          · obtain ⟨p, hpin, hrun, hinfo⟩ := processItems_mem_source items here hp info hhere
            exact ⟨ns, List.mem_cons_self ns rest, items, he, p, hpin, hrun, hinfo⟩
          · obtain ⟨ns1, hns1, rest1⟩ := ih there hc hthere
            exact ⟨ns1, List.mem_cons_of_mem ns hns1, rest1⟩

theorem get_pods_info_ok (client : Except String Unit) (env : Env)
    (namespaces maintainers : List String) (res : List PodComputeInfo)
    (h : get_pods_info client env namespaces maintainers = RunResult.ok res) :
    collectLoop env namespaces = Except.ok res := by
  unfold get_pods_info at h
  cases client with
  | error e => simp at h
  | ok u =>
    cases hc : collectLoop env namespaces with
    | error e => rw [hc] at h; simp at h
    | ok v =>
      rw [hc] at h
      dsimp only at h
      cases h
      rfl

theorem processPod_ok_fields (p : RawPod) (info : PodComputeInfo)
    (h : processPod p = Except.ok info) :
    info.node_name = (p.spec.bind RawPodSpec.node_name).getD "" ∧
    info.maintainer = ((p.metadata.labels.getD []).lookup "maintainer").getD "" ∧
    info.metadata = some { labels := some (p.metadata.labels.getD []) } := by
  unfold processPod at h
  cases hs : p.spec with
  | none => rw [hs] at h; simp [unwrapO] at h
  | some spec0 =>
    rw [hs] at h
    simp only [unwrapO, ok_bind] at h
    cases hc : spec0.containers.mapM normalizeContainer with
    | error e => rw [hc] at h; simp at h
    | ok cs =>
      rw [hc] at h
      simp only [ok_bind] at h
      cases hn : p.metadata.name with
      | none => rw [hn] at h; simp [unwrapO] at h
      | some nm =>
        rw [hn] at h
        simp only [unwrapO, ok_bind] at h
        cases hnsp : p.metadata.«namespace» with
        | none => rw [hnsp] at h; simp [unwrapO] at h
        | some nsp =>
          rw [hnsp] at h
          simp only [unwrapO, ok_bind, pure] at h
          cases h
          simp [hs]

/-- C1: the claim says a running pod with a container lacking its resources
block (or requests map, or cpu/memory key) is excluded as a per-pod
normalization failure while sibling pods and other namespaces continue.
The code instead `unwrap`s the missing field (`src/main.rs:104-123`), so the
whole collection panics: with namespace "a" holding such a pod next to a
well-formed sibling and namespace "b" healthy, the operation ends in a
panic and never produces the sibling-preserving result the claim
requires. -/
theorem C1_missing_request_panics :
    get_pods_info (Except.ok ()) envBadRes ["a", "b"] [] =
      RunResult.panicked "called Option::unwrap() on a None value" ∧
    get_pods_info (Except.ok ()) envBadRes ["a", "b"] [] ≠
      RunResult.ok [infoGood, infoGood2] := ⟨rfl, by decide⟩

/-- C2: the claim says a pod lacking `status` or `status.phase` fails only
that pod's processing, never the namespace. The code `unwrap`s both fields
inside the filter (`src/main.rs:85`), so one such pod panics the whole
collection: with namespace "a" holding a status-less pod next to a
well-formed sibling, the operation ends in a panic and the sibling is never
processed. -/
theorem C2_missing_status_panics :
    get_pods_info (Except.ok ()) envNoStatus ["a"] [] =
      RunResult.panicked "called Option::unwrap() on a None value" ∧
    get_pods_info (Except.ok ()) envNoStatus ["a"] [] ≠
      RunResult.ok [infoGood] := ⟨rfl, by decide⟩

/-- C3: whenever the collection completes, the result's length equals the
sum, over the namespaces whose query succeeded, of their running-pod
counts; failed namespaces contribute zero entries and do not disturb the
others. -/
theorem C3_length_eq_totalRunning (client : Except String Unit) (env : Env)
    (namespaces maintainers : List String) (res : List PodComputeInfo)
    (h : get_pods_info client env namespaces maintainers = RunResult.ok res) :
    res.length = totalRunning env namespaces :=
  collectLoop_ok_length env namespaces res
    (get_pods_info_ok client env namespaces maintainers res h)

/-- Witness for C3 at the spec's worked example: namespace "a" returns two
running pods and one pending pod, namespace "b" fails; the result has
exactly two entries. -/
theorem C3_length_witness :
    ([infoGood, infoGood2] : List PodComputeInfo).length =
      totalRunning envAB ["a", "b"] :=
  C3_length_eq_totalRunning (Except.ok ()) envAB ["a", "b"] []
    [infoGood, infoGood2] (by rfl)

/-- C4: every record of a completed collection stems from a pod, returned
by a successful namespace query, whose status phase is exactly "Running";
hence a pod with any other phase never appears in the result. -/
theorem C4_only_running_pods (client : Except String Unit) (env : Env)
    (namespaces maintainers : List String) (res : List PodComputeInfo)
    (h : get_pods_info client env namespaces maintainers = RunResult.ok res)
    (info : PodComputeInfo) (hm : info ∈ res) :
    ∃ ns ∈ namespaces, ∃ items, env ns = Except.ok items ∧
      ∃ p ∈ items, p.status.bind RawPodStatus.phase = some "Running" ∧
        processPod p = Except.ok info :=
  collectLoop_mem_source env namespaces res
    (get_pods_info_ok client env namespaces maintainers res h) info hm

/-- Witness for C4: `infoGood` in the result of the worked example comes
from a running pod of namespace "a". -/
theorem C4_only_running_witness :
    ∃ ns ∈ (["a", "b"] : List String), ∃ items, envAB ns = Except.ok items ∧
      ∃ p ∈ items, p.status.bind RawPodStatus.phase = some "Running" ∧
        processPod p = Except.ok infoGood :=
  C4_only_running_pods (Except.ok ()) envAB ["a", "b"] [] [infoGood, infoGood2]
    (by rfl) infoGood (by simp)

/-- C5 as stated is false: with a namespace list containing the same
namespace twice, each occurrence is queried independently and the single
running pod is emitted twice, so the result (length 2) is strictly larger
than the true union of running pods across the queried namespaces
(1 distinct pod). -/
theorem C5_counterexample_duplicates :
    get_pods_info (Except.ok ()) envDup ["a", "a"] [] =
      RunResult.ok [infoGood, infoGood] ∧
    trueUnionCount envDup ["a", "a"] = 1 ∧
    ¬ ([infoGood, infoGood] : List PodComputeInfo).length ≤
        trueUnionCount envDup ["a", "a"] := ⟨rfl, rfl, by decide⟩

/-- C5 (amended): `collect` always terminates; whenever it completes, the
result's length is no larger than the sum over the queried namespace
occurrences of their running-pod counts (duplicates counted once per
occurrence), and an empty namespace list yields an empty result. -/
theorem C5_amended_bound (client : Except String Unit) (env : Env)
    (namespaces maintainers : List String) (res : List PodComputeInfo)
    (h : get_pods_info client env namespaces maintainers = RunResult.ok res) :
    res.length ≤ totalRunning env namespaces ∧ (namespaces = [] → res = []) := by
  have hc := get_pods_info_ok client env namespaces maintainers res h
  refine ⟨le_of_eq (collectLoop_ok_length env namespaces res hc), ?_⟩
  intro hnil
  subst hnil
  rw [collectLoop] at hc
  cases hc
  rfl

/-- Witness for C5 (amended) at the empty namespace list. -/
theorem C5_amended_witness :
    ([] : List PodComputeInfo).length ≤ totalRunning envAB [] ∧
    (([] : List String) = [] → ([] : List PodComputeInfo) = []) :=
  C5_amended_bound (Except.ok ()) envAB [] [] [] (by rfl)

/-- C6: for a pod that normalizes successfully, absent optional fields map
to fixed defaults: a missing node assignment yields `node_name = ""`, a
missing label map yields `maintainer = ""` and a present-but-empty
`metadata.labels`, and a label map without a "maintainer" key yields
`maintainer = ""`. -/
theorem C6_optional_defaults (p : RawPod) (info : PodComputeInfo)
    (h : processPod p = Except.ok info) :
    (p.spec.bind RawPodSpec.node_name = none → info.node_name = "") ∧
    (p.metadata.labels = none →
      info.maintainer = "" ∧ info.metadata = some { labels := some [] }) ∧
    (∀ l, p.metadata.labels = some l → l.lookup "maintainer" = none →
      info.maintainer = "") := by
  obtain ⟨hnode, hmaint, hmeta⟩ := processPod_ok_fields p info h
  refine ⟨?_, ?_, ?_⟩
  · intro hn
    rw [hnode, hn]
    rfl
  · intro hl
    rw [hmaint, hmeta, hl]
    exact ⟨rfl, rfl⟩
  · intro l hl hkey
    rw [hmaint, hl]
    simp [hkey]

/-- Witness for C6: the minimal running pod (unscheduled, unlabeled)
normalizes with empty node name, empty maintainer, and a present empty
label map. -/
theorem C6_optional_defaults_witness :
    processPod podMinimal = Except.ok infoMinimal ∧
    infoMinimal.node_name = "" ∧ infoMinimal.maintainer = "" ∧
    infoMinimal.metadata = some { labels := some [] } :=
  ⟨rfl, (C6_optional_defaults podMinimal infoMinimal rfl).1 (by rfl),
    ((C6_optional_defaults podMinimal infoMinimal rfl).2.1 rfl).1,
    ((C6_optional_defaults podMinimal infoMinimal rfl).2.1 rfl).2⟩

/-- C7: a container that normalizes successfully has its declared cpu and
memory request quantities copied verbatim into the output record. -/
theorem C7_requests_verbatim (c : RawContainer) (out : Container)
    (h : normalizeContainer c = Except.ok out) (r : List (String × Quantity))
    (hr : c.resources = some { requests := some r }) (cpu mem : Quantity)
    (hcpu : r.lookup "cpu" = some cpu) (hmem : r.lookup "memory" = some mem) :
    out.compute_resources.requested_cpu = cpu ∧
    out.compute_resources.requested_memory = mem := by
  unfold normalizeContainer at h
  rw [hr] at h
  simp only [unwrapO, ok_bind, hcpu, hmem, pure] at h
  cases h
  exact ⟨rfl, rfl⟩

/-- Witness for C7: the fixture container requesting "500m" cpu and "256Mi"
memory yields exactly those quantities. -/
theorem C7_requests_verbatim_witness :
    out500.compute_resources.requested_cpu = { val := "500m" } ∧
    out500.compute_resources.requested_memory = { val := "256Mi" } :=
  C7_requests_verbatim c500 out500 rfl reqs500 rfl { val := "500m" }
    { val := "256Mi" } rfl rfl

/-- C8: the maintainers value is never used: the handler drops the request
body's `maintainers` field entirely, and `get_pods_info` never reads its
`maintainers` parameter, so two requests that differ only in maintainers
produce identical inventories. -/
theorem C8_maintainers_unused (client : Except String Unit) (env : Env)
    (b1 b2 : PodComputeInfoRequestBody) (hns : b1.namespaces = b2.namespaces)
    (namespaces m1 m2 : List String) :
    get_all_pods_info client env b1 = get_all_pods_info client env b2 ∧
    get_pods_info client env namespaces m1 = get_pods_info client env namespaces m2 := by
  constructor
  · unfold get_all_pods_info
    rw [hns]
  · rfl

/-- Witness for C8: a request carrying a maintainer filter and one carrying
none produce the same response on the worked example. -/
theorem C8_maintainers_unused_witness :
    get_all_pods_info (Except.ok ()) envAB
        { maintainers := some ["team-x"], namespaces := ["a", "b"] } =
      get_all_pods_info (Except.ok ()) envAB
        { maintainers := none, namespaces := ["a", "b"] } ∧
    get_pods_info (Except.ok ()) envAB ["a", "b"] ["team-x"] =
      get_pods_info (Except.ok ()) envAB ["a", "b"] [] :=
  C8_maintainers_unused (Except.ok ()) envAB
    { maintainers := some ["team-x"], namespaces := ["a", "b"] }
    { maintainers := none, namespaces := ["a", "b"] } rfl ["a", "b"] ["team-x"] []

/-- C9: the claim says a client-bootstrap failure is surfaced as a failed
(non-2xx) response. `get_pods_info` does return the bootstrap error as an
`anyhow` error (second conjunct), but the handler `unwrap`s that result
(`src/main.rs:66`), so the request ends in a panic — a crash, not an HTTP
error response (first conjunct). -/
theorem C9_bootstrap_failure_panics :
    get_all_pods_info (Except.error "failed to infer kube config") envAB
        { maintainers := none, namespaces := ["a"] } =
      RunResult.panicked "failed to infer kube config" ∧
    get_pods_info (Except.error "failed to infer kube config") envAB ["a"] [] =
      RunResult.err "failed to infer kube config" := ⟨rfl, rfl⟩

/-- C10: every record of a completed collection has `metadata` present and
`metadata.labels` present (possibly empty), despite both being optional in
the output data model. -/
theorem C10_metadata_always_present (client : Except String Unit) (env : Env)
    (namespaces maintainers : List String) (res : List PodComputeInfo)
    (h : get_pods_info client env namespaces maintainers = RunResult.ok res)
    (info : PodComputeInfo) (hm : info ∈ res) :
    ∃ l, info.metadata = some { labels := some l } := by
  obtain ⟨ns, hns, items, he, p, hp, hrun, hinfo⟩ :=
    collectLoop_mem_source env namespaces res
      (get_pods_info_ok client env namespaces maintainers res h) info hm
  exact ⟨p.metadata.labels.getD [], (processPod_ok_fields p info hinfo).2.2⟩

/-- Witness for C10: the first record of the worked example has a present
metadata block with a present label map. -/
theorem C10_metadata_present_witness :
    ∃ l, infoGood.metadata = some { labels := some l } :=
  C10_metadata_always_present (Except.ok ()) envAB ["a", "b"] []
    [infoGood, infoGood2] (by rfl) infoGood (by simp)
